import Mathlib

/-!
Verification of `tracer_budget_tools.py` (POP tracer budget terms).

Shallow embedding conventions:
* A floating-point value is `V := Option ℚ`; `none` models not-a-number
  (NaN / missing / `_FillValue`), `some q` a finite value.  NaN propagates
  through arithmetic, exactly as IEEE NaN does for the operations the code
  uses (`+`, `-`, `*`, `/` with nonzero denominators).
* A labeled array is a total function from its index tuple to `V`
  (or to `ℚ` for grid-geometry inputs that are always defined):
  dims follow POP order `(time, z, nlat, nlon)`; `nlat` is the south-north
  index and `nlon` the west-east index.
* `DataArray.shift(dim=-1)` puts at position `j` the value from `j+1`
  and fills the vacated edge with NaN.
* `DataArray.sum(dim)` skips NaN (xarray default `skipna=True`), so a sum
  over a level range is always a defined rational.
* `where(cond)` replaces values by NaN where `cond` is false; NaN itself
  satisfies `x != 0`, so `where(x != 0)` keeps NaN as NaN.
* `fillna(0)` replaces NaN by `0`.
-/

/-- A float value: `none` is NaN/missing. -/
abbrev V := Option ℚ

/-- NaN-propagating addition. -/
def vadd : V → V → V
  | some a, some b => some (a + b)
  | _, _ => none

/-- NaN-propagating subtraction. -/
def vsub : V → V → V
  | some a, some b => some (a - b)
  | _, _ => none

/-- NaN-propagating multiplication (`0 * NaN = NaN`, as in IEEE). -/
def vmul : V → V → V
  | some a, some b => some (a * b)
  | _, _ => none

/-- NaN-propagating negation (`-1 * x`). -/
def vneg : V → V
  | some a => some (-a)
  | none => none

/-- NaN-propagating division (denominators in the code are period lengths,
never zero; `ℚ` division is total). -/
def vdiv : V → V → V
  | some a, some b => some (a / b)
  | _, _ => none

/-- `fillna(0.)`. -/
def fillna0 : V → V
  | some a => some a
  | none => some 0

/-- `x.where(x != 0.)`: exact zeros become NaN, NaN stays NaN (since
`NaN != 0` is true), other values pass through. -/
def whereNe0 : V → V
  | none => none
  | some q => if q = 0 then none else some q

/-- 3D field `(z, nlat, nlon)`, e.g. `vol3d`. -/
abbrev F3 := ℕ → ℕ → ℕ → V

/-- 4D field `(time, z, nlat, nlon)`, e.g. `UET`. -/
abbrev F4 := ℕ → ℕ → ℕ → ℕ → V

/-- 2D horizontal field `(nlat, nlon)`. -/
abbrev F2 := ℕ → ℕ → V

/-- `field.shift(nlat=-1)` on a 3D field with `ny` rows: position `j`
receives the value from `j+1`; the vacated last row becomes NaN. -/
def shiftNlat3 (ny : ℕ) (f : F3) : F3 :=
  fun k j i => if j + 1 < ny then f k (j + 1) i else none

/-- `field.shift(nlon=-1)` on a 3D field with `nx` columns. -/
def shiftNlon3 (nx : ℕ) (f : F3) : F3 :=
  fun k j i => if i + 1 < nx then f k j (i + 1) else none

/-- `field.shift(nlat=-1)` on a 4D field. -/
def shiftNlat4 (ny : ℕ) (f : F4) : F4 :=
  fun t k j i => if j + 1 < ny then f t k (j + 1) i else none

/-- `field.shift(nlon=-1)` on a 4D field. -/
def shiftNlon4 (nx : ℕ) (f : F4) : F4 :=
  fun t k j i => if i + 1 < nx then f t k j (i + 1) else none

/-- The pre-vertical-integration divergence of
`tracer_budget_lat_adv_resolved`: the source forms
`vol_w = vol3d.shift(nlat=-1)`, `vol_s = vol3d.shift(nlon=-1)`,
`u_w = u_e.shift(nlat=-1)`, `v_s = v_n.shift(nlon=-1)`, then
`var5 = (var2-var1) + (var4-var3)` with `var1 = u_e*vol_c`,
`var2 = u_w*vol_w`, `var3 = v_n*vol_c`, `var4 = v_s*vol_s`
(`vol3d` is 3D and broadcasts over time). -/
def latAdvVar5 (ny nx : ℕ) (u_e v_n : F4) (vol3d : F3) : F4 :=
  let vol_c := vol3d
  let vol_w := shiftNlat3 ny vol3d
  let vol_s := shiftNlon3 nx vol3d
  let u_w := shiftNlat4 ny u_e
  let v_s := shiftNlon4 nx v_n
  fun t k j i =>
    let var1 := vmul (u_e t k j i) (vol_c k j i)
    let var2 := vmul (u_w t k j i) (vol_w k j i)
    let var3 := vmul (v_n t k j i) (vol_c k j i)
    let var4 := vmul (v_s t k j i) (vol_s k j i)
    vadd (vsub var2 var1) (vsub var4 var3)

/-- The pre-vertical-integration divergence of `tracer_budget_hmix`:
identical shifts and products, but `var5 = (var1 - var2) + (var3 - var4)`. -/
def hmixVar5 (ny nx : ℕ) (u_e v_n : F4) (vol3d : F3) : F4 :=
  let vol_c := vol3d
  let vol_w := shiftNlat3 ny vol3d
  let vol_s := shiftNlon3 nx vol3d
  let u_w := shiftNlat4 ny u_e
  let v_s := shiftNlon4 nx v_n
  fun t k j i =>
    let var1 := vmul (u_e t k j i) (vol_c k j i)
    let var2 := vmul (u_w t k j i) (vol_w k j i)
    let var3 := vmul (v_n t k j i) (vol_c k j i)
    let var4 := vmul (v_s t k j i) (vol_s k j i)
    vadd (vsub var1 var2) (vsub var3 var4)

/-- `var.sum(dim='z_t')` over levels `0..nz-1` with xarray's default
`skipna=True`: NaN entries contribute nothing and the result is always a
defined rational (an all-NaN column sums to `0`). -/
def sumZskip (nz : ℕ) (f : ℕ → V) : ℚ :=
  (List.range nz).foldl (fun acc k => acc + (f k).getD 0) 0

/-- The 2D map returned by `tracer_budget_lat_adv_resolved`: vertical
integration of `latAdvVar5` followed by `.where(var != 0.)`. -/
def tracer_budget_lat_adv_map (nz ny nx : ℕ) (u_e v_n : F4) (vol3d : F3) :
    ℕ → ℕ → ℕ → V :=
  fun t j i => whereNe0 (some (sumZskip nz (fun k => latAdvVar5 ny nx u_e v_n vol3d t k j i)))

/-- The 2D map returned by `tracer_budget_hmix`: vertical integration of
`hmixVar5` followed by `.where(var != 0.)`. -/
def tracer_budget_hmix_map (nz ny nx : ℕ) (u_e v_n : F4) (vol3d : F3) :
    ℕ → ℕ → ℕ → V :=
  fun t j i => whereNe0 (some (sumZskip nz (fun k => hmixVar5 ny nx u_e v_n vol3d t k j i)))

/-- Initial `vol3d = dz*tarea` before the masking loop: broadcasting the
1D thickness `dz(z)` against the 2D area `tarea(nlat,nlon)` gives
`vol3d[k,j,i] = dz[k]*tarea[j,i]` (all defined, hence `some`). -/
def vol3dInit (tarea : ℕ → ℕ → ℚ) (dz : ℕ → ℚ) : F3 :=
  fun k j i => some (dz k * tarea j i)

/-- One iteration of the masking loop in `tracer_budget_vol3d`:
`vol3d[k,:,:] = vol3d[k].where(kmt > k)` — level `k` keeps its value where
`kmt > k` and becomes NaN elsewhere; other levels are untouched. -/
def maskLevel (kmt : ℕ → ℕ → ℕ) (k : ℕ) (vol : F3) : F3 :=
  fun k' j i => if k' = k then (if kmt j i > k then vol k' j i else none) else vol k' j i

/-- `tracer_budget_vol3d`: `vol3d = dz*tarea`, then
`for i in range(dz.shape[0]): vol3d[i,:,:] = vol3d[i].where(kmt > i)`. -/
def tracer_budget_vol3d (nz : ℕ) (tarea : ℕ → ℕ → ℚ) (dz : ℕ → ℚ)
    (kmt : ℕ → ℕ → ℕ) : F3 :=
  (List.range nz).foldl (fun vol k => maskLevel kmt k vol) (vol3dInit tarea dz)

/-- `tracer_budget_var3d_zint_map`: `var = tracer[:,klo:khi] * vol3d[klo:khi]`,
`var.sum(dim='z_t')` (skipna), then `.where(var_zint_map != 0.)`. -/
def tracer_budget_var3d_zint_map (klo khi : ℕ) (tracer : F4) (vol3d : F3) :
    ℕ → ℕ → ℕ → V :=
  fun t j i =>
    whereNe0 (some (sumZskip (khi - klo) (fun k => vmul (tracer t (klo + k) j i) (vol3d (klo + k) j i))))

/-- `tracer_budget_vert_adv_resolved` core: `volc = vol3d[0].values`,
`var1 = FIELD[:,1]*volc`, returned map `= -1*var1` (no zero-masking). -/
def tracer_budget_vert_adv_map (FIELD : F4) (vol3d : F3) : ℕ → ℕ → ℕ → V :=
  fun t j i => vneg (vmul (FIELD t 1 j i) (vol3d 0 j i))

/-- `tracer_budget_dia_vmix` core: `FIELD_TOP = FIELD[:,klo]`,
`FIELD_BOT = FIELD[:,khi]`, `tarea_bot = tarea.where(kmt > khi, 0)`,
`tarea_top = tarea.where(kmt > klo, 0)`, output
`-(FIELD_BOT*tarea_bot).fillna(0) - FIELD_TOP*tarea_top` combined as
`-(BOT.fillna(0) - TOP)` (no zero-masking on return). -/
def tracer_budget_dia_vmix (klo khi : ℕ) (FIELD : F4) (tarea : ℕ → ℕ → ℚ)
    (kmt : ℕ → ℕ → ℕ) : ℕ → ℕ → ℕ → V :=
  let tarea_bot := fun j i => if kmt j i > khi then tarea j i else 0
  let tarea_top := fun j i => if kmt j i > klo then tarea j i else 0
  fun t j i =>
    vneg (vsub (fillna0 (vmul (FIELD t khi j i) (some (tarea_bot j i))))
               (vmul (FIELD t klo j i) (some (tarea_top j i))))

/-- `tracer_budget_adi_vmix` core: like `dia_vmix` but each level scaled by
the cell volume `vol3d[k]` and with no area-based bottom gating:
output `= -(FIELD[:,khi]*vol3d[khi]).fillna(0) - FIELD[:,klo]*vol3d[klo])`
combined as `-(BOT.fillna(0) - TOP)` (no zero-masking on return). -/
def tracer_budget_adi_vmix (klo khi : ℕ) (FIELD : F4) (vol3d : F3) :
    ℕ → ℕ → ℕ → V :=
  fun t j i =>
    vneg (vsub (fillna0 (vmul (FIELD t khi j i) (vol3d khi j i)))
               (vmul (FIELD t klo j i) (vol3d klo j i)))

/-- A CPython string object: its text value plus an object identifier.
Two objects with the same text need not be the same object (only literals
interned by the compiler are shared); `is` compares objects, `==`/`in`
compare text. -/
structure PyStr where
  val : String
  uid : ℕ
deriving DecidableEq

/-- The interned literal `"EVAP_F"` occurring in the source of
`tracer_budget_sflux`; object id 0 by convention. -/
def litEVAP_F : PyStr := ⟨"EVAP_F", 0⟩

/-- Python `is` on strings: object identity (same object, hence same text). -/
def pyIs (a b : PyStr) : Bool := a.uid = b.uid && a.val = b.val

/-- The heat-flux variable names of the first `if var_name in [...]` arm. -/
def heatFluxNames : List String :=
  ["SHF", "QFLUX", "SENH_F", "LWDN_F", "LWUP_F", "SHF_QSW", "MELTH_F"]

/-- The scale-factor dispatch of `tracer_budget_sflux`, after the unit
conversions (`rho_cp` in J/cm³/K, `latvap` in J/kg, `latfus` in J/kg):
membership tests use text equality, but the `EVAP_F` arm is
`var_name is "EVAP_F"` — object identity against the interned literal. -/
def sflux_scale_factor (var_name : PyStr) (rho_cp latvap latfus : ℚ) : ℚ :=
  if var_name.val ∈ heatFluxNames then (1 / 10 ^ 4) * (1 / rho_cp)
  else if var_name.val ∈ ["SNOW_F", "IOFF_F"] then -latfus * (1 / 10 ^ 4) * (1 / rho_cp)
  else if pyIs var_name litEVAP_F then latvap * (1 / 10 ^ 4) * (1 / rho_cp)
  else 1

/-- `tracer_budget_sflux` core: unit conversions
`rho_sw*1e-3`, `cp_sw*1e-7*1e3`, `latfus*1e-7*1e3`, the scale-factor
dispatch, units from the tracer name, and `FIELD*scale_factor*area2d`
(surface `FIELD(t,nlat,nlon)`; no zero-masking on return).
Returns (units, map). -/
def tracer_budget_sflux (TRACER : String) (var_name : PyStr)
    (area2d : ℕ → ℕ → ℚ) (rho_sw cp_sw latvap latfus : ℚ)
    (FIELD : ℕ → ℕ → ℕ → V) : String × (ℕ → ℕ → ℕ → V) :=
  let rho_cp := (rho_sw * (1 / 10 ^ 3)) * (cp_sw * (1 / 10 ^ 7) * 10 ^ 3)
  let latfusJ := latfus * (1 / 10 ^ 7) * 10 ^ 3
  let scale_factor := sflux_scale_factor var_name rho_cp latvap latfusJ
  let units := if TRACER = "TEMP" then "degC cm^3/s" else "PSU cm^3/s"
  (units, fun t j i => vmul (vmul (FIELD t j i) (some scale_factor)) (some (area2d j i)))

/-- A time series of 2D fields (`var_zint(t,nlat,nlon)` with `nt` samples). -/
abbrev TS := ℕ → F2

/-- The all-NaN fill field `vfill_value = np.ones(shape)*np.nan`. -/
def vfill2 : F2 := fun _ _ => none

/-- In-place assignment `series[m] = x` (xarray `__setitem__` on the time
axis writes through to the underlying buffer). -/
def setT (g : TS) (m : ℕ) (x : F2) : TS :=
  fun n => if n = m then x else g n

/-- The array `aux = (var1[0:nt-2].values + var1[1:nt-1].values)*0.5`
computed by `tracer_budget_tend_appr` (defined for `n < nt-2`).  The
subsequent statement `var1[0:nt-2].values = aux` assigns the `.values`
property of the temporary slice `var1[0:nt-2]`: xarray's `values` setter
rebinds the temporary's data pointer and does not write through to
`var1`'s buffer, so `aux` is discarded. -/
def tendAux (f : TS) : TS :=
  fun n j i => vmul (vadd (f n j i) (f (n + 1) j i)) (some (1 / 2))

/-- The array `var1[1:nt-2].values - var1[0:nt-3].values` whose assignment
to `var2[1:nt-2].values` is likewise a rebind of a temporary slice's data,
not a write-through; it too is discarded. -/
def tendDiff (b : TS) : TS :=
  fun n j i => vsub (b (n + 1) j i) (b n j i)

/-- `tracer_budget_tend_appr` for a series of `nt` samples with per-sample
period lengths `dt n = (time_bnd[n,1]-time_bnd[n,0])*86400` (embedded as a
given `V`-valued series).  `var1 = var_zint.load()` returns the *same*
object as `var_zint`, and `var2 = var1` is a further alias, so the three
effective statements `var1[nt-1] = vfill_value`, `var2[0] = vfill_value`,
`var2[nt-1,:,:] = vfill_value` mutate the caller's buffer; the two
`.values =` slice assignments (see `tendAux`, `tendDiff`) have no effect
on it.  Returns (final state of the input buffer, returned tendency
`var2/dt`, a fresh array). -/
def tracer_budget_tend_appr (nt : ℕ) (dt : ℕ → V) (var_zint : TS) :
    TS × (ℕ → ℕ → ℕ → V) :=
  let b1 := setT var_zint (nt - 1) vfill2
  let b2 := setT b1 0 vfill2
  let b3 := setT b2 (nt - 1) vfill2
  (b3, fun n j i => vdiv (b3 n j i) (dt n))

/-- The tracer-name branch of `tracer_budget_lat_adv_resolved`:
`(var_name1, var_name2, units)`. -/
def lat_adv_names_units (TRACER : String) : String × String × String :=
  if TRACER = "TEMP" then ("UET", "VNT", "degC cm^3/s")
  else ("UES", "VNS", "PSU cm^3/s")

/-- The tracer-name branch of `tracer_budget_vert_adv_resolved`:
`(var_name, units)`. -/
def vert_adv_name_units (TRACER : String) : String × String :=
  if TRACER = "TEMP" then ("WTT", "degC cm^3/s")
  else ("WTS", "PSU cm^3/s")

/-- The tracer-name branch of `tracer_budget_hmix`: units by branch, then
`var_name1 = "HDIFE_"+TRACER`, `var_name2 = "HDIFN_"+TRACER`
(concatenated from the tracer string, outside the branch). -/
def hmix_names_units (TRACER : String) : String × String × String :=
  ("HDIFE_" ++ TRACER, "HDIFN_" ++ TRACER,
    if TRACER = "TEMP" then "degC cm^3/s" else "PSU cm^3/s")

/-- The tracer-name branch of `tracer_budget_dia_vmix`: units by branch,
`var_name = "DIA_IMPVF_"+TRACER`. -/
def dia_vmix_name_units (TRACER : String) : String × String :=
  ("DIA_IMPVF_" ++ TRACER,
    if TRACER = "TEMP" then "degC cm^3/s" else "PSU cm^3/s")

/-- The tracer-name branch of `tracer_budget_adi_vmix`: units by branch,
`var_name = "HDIFB_"+TRACER`. -/
def adi_vmix_name_units (TRACER : String) : String × String :=
  ("HDIFB_" ++ TRACER,
    if TRACER = "TEMP" then "degC cm^3/s" else "PSU cm^3/s")

/-- The units branch of `tracer_budget_sflux`. -/
def sflux_units (TRACER : String) : String :=
  if TRACER = "TEMP" then "degC cm^3/s" else "PSU cm^3/s"

/-- The divergence as claim C1 (and spec §4.2) words it: the west-neighbor
contribution shifted along the *west-east* axis (`nlon`) and the
south-neighbor contribution along the *south-north* axis (`nlat`), with the
same `[i] receives [i+1]` offset and NaN fill.  Written from the spec's
words for comparison with `latAdvVar5`, which embeds the source. -/
def latAdvVar5Claimed (ny nx : ℕ) (u_e v_n : F4) (vol3d : F3) : F4 :=
  let vol_c := vol3d
  let vol_w := shiftNlon3 nx vol3d
  let vol_s := shiftNlat3 ny vol3d
  let u_w := shiftNlon4 nx u_e
  let v_s := shiftNlat4 ny v_n
  fun t k j i =>
    let var1 := vmul (u_e t k j i) (vol_c k j i)
    let var2 := vmul (u_w t k j i) (vol_w k j i)
    let var3 := vmul (v_n t k j i) (vol_c k j i)
    let var4 := vmul (v_s t k j i) (vol_s k j i)
    vadd (vsub var2 var1) (vsub var4 var3)

/-- Demo east-face flux on a one-level 2×2 grid: four distinct values, so
the two horizontal shift axes are distinguishable. -/
def demoU : F4 := fun _ _ j i =>
  if j = 0 ∧ i = 0 then some 1
  else if j = 1 ∧ i = 0 then some 2
  else if j = 0 ∧ i = 1 then some 3
  else some 4

/-- Demo north-face flux: identically zero. -/
def demoV0 : F4 := fun _ _ _ _ => some 0

/-- Demo cell volume: identically one. -/
def demoVol1 : F3 := fun _ _ _ => some 1

/-- A Python string with text `"EVAP_F"` built at run time (e.g.
`"".join(["EVAP_","F"])`): equal in value to the source literal but a
distinct object, so `is` against the literal is false. -/
def runtimeEVAP_F : PyStr := ⟨"EVAP_F", 1⟩

/-! ## Helper lemmas -/

theorem vadd_vsub_swap_neg (x y z w : V) :
    vadd (vsub x y) (vsub z w) = vneg (vadd (vsub y x) (vsub w z)) := by
  cases x <;> cases y <;> cases z <;> cases w
  all_goals simp [vadd, vsub, vneg]
  all_goals ring

theorem whereNe0_ne_some_zero (x : V) : whereNe0 x ≠ some 0 := by
  cases x with
  | none => simp [whereNe0]
  | some q => by_cases hq : q = 0 <;> simp [whereNe0, hq]

theorem sflux_scale_factor_default (s : PyStr) (rho_cp latvap latfus : ℚ)
    (h1 : s.val ∉ heatFluxNames) (h2 : s.val ∉ ["SNOW_F", "IOFF_F"])
    (h3 : pyIs s litEVAP_F = false) :
    sflux_scale_factor s rho_cp latvap latfus = 1 := by
  unfold sflux_scale_factor
  rw [if_neg h1, if_neg h2, if_neg (by simp [h3])]

theorem sflux_scale_factor_evap (s : PyStr) (rho_cp latvap latfus : ℚ)
    (h1 : s.val ∉ heatFluxNames) (h2 : s.val ∉ ["SNOW_F", "IOFF_F"])
    (h3 : pyIs s litEVAP_F = true) :
    sflux_scale_factor s rho_cp latvap latfus =
      latvap * (1 / 10 ^ 4) * (1 / rho_cp) := by
  unfold sflux_scale_factor
  rw [if_neg h1, if_neg h2, if_pos (by simp [h3])]

/-! ## Claim theorems -/

/-- C1: the claim says the west-neighbor contribution is shifted along the
west-east axis (`nlon`) and the south-neighbor along the south-north axis
(`nlat`).  The source does the opposite: `u_w = u_e.shift(nlat=-1)` and
`v_s = v_n.shift(nlon=-1)`.  On a 2×2 demo grid the code's west shift
fetches the `nlat`-neighbor `demoU 0 0 1 0`, not the `nlon`-neighbor
`demoU 0 0 0 1`, and the code divergence (`some 1`) differs from the
divergence the claim describes (`some 2`). -/
theorem c1_shift_axes_swapped :
    shiftNlat4 2 demoU 0 0 0 0 = demoU 0 0 1 0 ∧
    shiftNlon4 2 demoU 0 0 0 0 = demoU 0 0 0 1 ∧
    demoU 0 0 1 0 ≠ demoU 0 0 0 1 ∧
    latAdvVar5 2 2 demoU demoV0 demoVol1 0 0 0 0 = some 1 ∧
    latAdvVar5Claimed 2 2 demoU demoV0 demoVol1 0 0 0 0 = some 2 ∧
    hmixVar5 2 2 demoU demoV0 demoVol1 0 0 0 0 = some (-1) := by
  refine ⟨?_, ?_, ?_, ?_, ?_, ?_⟩ <;>
    simp [latAdvVar5, latAdvVar5Claimed, hmixVar5, demoU, demoV0, demoVol1,
      shiftNlat4, shiftNlon4, shiftNlat3, shiftNlon3, vmul, vadd, vsub] <;>
    norm_num

/-- C5: for identical flux and volume inputs, the pre-vertical-integration
divergence of `tracer_budget_hmix` is the elementwise negation of the one
computed by `tracer_budget_lat_adv_resolved`, at every index (NaN cells
negate to NaN). -/
theorem c5_hmix_negates_lat_adv (ny nx : ℕ) (u_e v_n : F4) (vol3d : F3)
    (t k j i : ℕ) :
    hmixVar5 ny nx u_e v_n vol3d t k j i =
      vneg (latAdvVar5 ny nx u_e v_n vol3d t k j i) := by
  simp only [hmixVar5, latAdvVar5]
  exact vadd_vsub_swap_neg _ _ _ _

/-- C4 (counterexample): the claim that *every* budget-term output has its
zero cells replaced by NaN is false — `tracer_budget_vert_adv_resolved`
returns without any `.where(... != 0)`, so a zero-valued cell is returned
as an exact zero, not as NaN. -/
theorem c4_unmasked_zero_output :
    tracer_budget_vert_adv_map (fun _ _ _ _ => some 0) (fun _ _ _ => some 1)
      0 0 0 = some 0 := by
  norm_num [tracer_budget_vert_adv_map, vneg, vmul]

/-- C4 (amended): only lateral advection, horizontal mixing and the
vertical-integral map mask zero cells to NaN before returning (their
outputs are never an exact zero); vertical advection, diabatic and
adiabatic vertical mixing, and surface flux do not — each can return an
exact zero, witnessed at concrete inputs. -/
theorem c4_amended_masking :
    (∀ nz ny nx u_e v_n vol3d t j i,
      tracer_budget_lat_adv_map nz ny nx u_e v_n vol3d t j i ≠ some 0) ∧
    (∀ nz ny nx u_e v_n vol3d t j i,
      tracer_budget_hmix_map nz ny nx u_e v_n vol3d t j i ≠ some 0) ∧
    (∀ klo khi tracer vol3d t j i,
      tracer_budget_var3d_zint_map klo khi tracer vol3d t j i ≠ some 0) ∧
    tracer_budget_vert_adv_map (fun _ _ _ _ => some 2) (fun _ _ _ => some 0)
      0 0 0 = some 0 ∧
    tracer_budget_dia_vmix 0 1 (fun _ _ _ _ => some 0) (fun _ _ => 1)
      (fun _ _ => 5) 0 0 0 = some 0 ∧
    tracer_budget_adi_vmix 0 1 (fun _ _ _ _ => some 0) (fun _ _ _ => some 1)
      0 0 0 = some 0 ∧
    (tracer_budget_sflux "TEMP" ⟨"TAUX", 3⟩ (fun _ _ => 1) 1 1 1 1
      (fun _ _ _ => some 0)).2 0 0 0 = some 0 := by
  refine ⟨fun nz ny nx u_e v_n vol3d t j i => whereNe0_ne_some_zero _,
    fun nz ny nx u_e v_n vol3d t j i => whereNe0_ne_some_zero _,
    fun klo khi tracer vol3d t j i => whereNe0_ne_some_zero _,
    ?_, ?_, ?_, ?_⟩ <;>
    norm_num [tracer_budget_vert_adv_map, tracer_budget_dia_vmix,
      tracer_budget_adi_vmix, tracer_budget_sflux, sflux_scale_factor,
      pyIs, litEVAP_F, heatFluxNames, vmul, vneg, vsub, fillna0]

/-- C8: the source's `var_name is "EVAP_F"` compares object identity, not
text.  A run-time-built string with the same text `"EVAP_F"` is a distinct
object, fails the identity test and silently falls to the default scale
`1.0`, so the scale factor is *not* selected solely from the variable
name's value; the interned literal itself does get
`latvap * 1e-4 / rho_cp`, names outside the table (`"TAUX"`) get `1.0`,
and then the output equals `FIELD * area2d`. -/
theorem c8_evap_identity_compare :
    runtimeEVAP_F.val = litEVAP_F.val ∧
    pyIs runtimeEVAP_F litEVAP_F = false ∧
    sflux_scale_factor runtimeEVAP_F 2 3 5 = 1 ∧
    sflux_scale_factor litEVAP_F 2 3 5 = 3 * (1 / 10 ^ 4) * (1 / 2) ∧
    sflux_scale_factor runtimeEVAP_F 2 3 5 ≠ sflux_scale_factor litEVAP_F 2 3 5 ∧
    sflux_scale_factor ⟨"TAUX", 2⟩ 2 3 5 = 1 ∧
    (tracer_budget_sflux "TEMP" ⟨"TAUX", 7⟩ (fun _ _ => 3) 2 2 3 5
      (fun _ _ _ => some 4)).2 0 0 0 = some (4 * 3) := by
  have hrt : sflux_scale_factor runtimeEVAP_F 2 3 5 = 1 :=
    sflux_scale_factor_default _ _ _ _ (by decide) (by decide) (by decide)
  have hlit : sflux_scale_factor litEVAP_F 2 3 5 = 3 * (1 / 10 ^ 4) * (1 / 2) :=
    sflux_scale_factor_evap _ _ _ _ (by decide) (by decide) (by decide)
  have htaux : sflux_scale_factor ⟨"TAUX", 7⟩
      ((2 * (1 / 10 ^ 3)) * (2 * (1 / 10 ^ 7) * 10 ^ 3)) 3
      (5 * (1 / 10 ^ 7) * 10 ^ 3) = 1 :=
    sflux_scale_factor_default _ _ _ _ (by decide) (by decide) (by decide)
  refine ⟨rfl, by decide, hrt, hlit, ?_,
    sflux_scale_factor_default _ _ _ _ (by decide) (by decide) (by decide), ?_⟩
  · rw [hrt, hlit]; norm_num
  · simp only [tracer_budget_sflux]
    rw [htaux]
    norm_num [vmul]

/-- C10: every tracer string other than exactly `"TEMP"` takes the
salinity branch in every budget-term function: units `"PSU cm^3/s"`
everywhere, and the branch-derived variable names are the SALT ones
(`UES`/`VNS` for lateral advection, `WTS` for vertical advection). -/
theorem c10_non_temp_salinity_branch (TRACER : String) (h : TRACER ≠ "TEMP") :
    lat_adv_names_units TRACER = ("UES", "VNS", "PSU cm^3/s") ∧
    vert_adv_name_units TRACER = ("WTS", "PSU cm^3/s") ∧
    (hmix_names_units TRACER).2.2 = "PSU cm^3/s" ∧
    (dia_vmix_name_units TRACER).2 = "PSU cm^3/s" ∧
    (adi_vmix_name_units TRACER).2 = "PSU cm^3/s" ∧
    sflux_units TRACER = "PSU cm^3/s" := by
  simp [lat_adv_names_units, vert_adv_name_units, hmix_names_units,
    dia_vmix_name_units, adi_vmix_name_units, sflux_units, h]

/-- C10 witness: the unknown tracer name `"FOO"`. -/
theorem c10_non_temp_salinity_branch_witness :
    lat_adv_names_units "FOO" = ("UES", "VNS", "PSU cm^3/s") ∧
    vert_adv_name_units "FOO" = ("WTS", "PSU cm^3/s") ∧
    (hmix_names_units "FOO").2.2 = "PSU cm^3/s" ∧
    (dia_vmix_name_units "FOO").2 = "PSU cm^3/s" ∧
    (adi_vmix_name_units "FOO").2 = "PSU cm^3/s" ∧
    sflux_units "FOO" = "PSU cm^3/s" :=
  c10_non_temp_salinity_branch "FOO" (by decide)

theorem vol3d_foldl_eval (kmt : ℕ → ℕ → ℕ) (l : List ℕ) (g : F3) (k j i : ℕ) :
    (l.foldl (fun vol m => maskLevel kmt m vol) g) k j i =
      if k ∈ l then (if k < kmt j i then g k j i else none) else g k j i := by
  induction l generalizing g with
  | nil => simp
  | cons m rest ih =>
      rw [List.foldl_cons, ih]
      by_cases hk : k ∈ rest
      · by_cases hlt : k < kmt j i
        · by_cases hkm : k = m
          · subst hkm
            simp [hk, hlt, maskLevel]
          · simp [hk, hlt, hkm, maskLevel]
        · simp [hk, hlt]
      · by_cases hkm : k = m
        · subst hkm
          simp [hk, maskLevel]
        · simp [hk, hkm, maskLevel]

/-- C6: for every geometry triple, `tracer_budget_vol3d` is NaN at every
in-range position `(k, j, i)` with `kmt j i <= k` and equals
`dz k * tarea j i` at every other in-range position. -/
theorem c6_vol3d_spec (nz : ℕ) (tarea : ℕ → ℕ → ℚ) (dz : ℕ → ℚ)
    (kmt : ℕ → ℕ → ℕ) (k j i : ℕ) (hk : k < nz) :
    tracer_budget_vol3d nz tarea dz kmt k j i =
      if k < kmt j i then some (dz k * tarea j i) else none := by
  unfold tracer_budget_vol3d
  rw [vol3d_foldl_eval]
  simp [List.mem_range, hk, vol3dInit]

/-- C6 witness: the spec scenario `area = [[1]]`, `thickness = [10,10]`,
`bottomLevel = [[1]]` gives `volume3D = [[[10]],[[NaN]]]`. -/
theorem c6_vol3d_spec_witness :
    tracer_budget_vol3d 2 (fun _ _ => 1) (fun _ => 10) (fun _ _ => 1) 0 0 0 = some 10 ∧
    tracer_budget_vol3d 2 (fun _ _ => 1) (fun _ => 10) (fun _ _ => 1) 1 0 0 = none := by
  constructor
  · rw [c6_vol3d_spec 2 (fun _ _ => 1) (fun _ => 10) (fun _ _ => 1) 0 0 0 (by norm_num)]
    norm_num
  · rw [c6_vol3d_spec 2 (fun _ _ => 1) (fun _ => 10) (fun _ _ => 1) 1 0 0 (by norm_num)]
    norm_num

/-- C7: for any input series of length at least 2, the returned tendency is
missing at the first and at the last time index, at every spatial position
(`var2[0]` and `var2[nt-1]` are set to the NaN fill field and NaN survives
the division by `dt`). -/
theorem c7_tend_boundary_missing (nt : ℕ) (dt : ℕ → V) (f : TS)
    (hnt : 2 ≤ nt) (j i : ℕ) :
    (tracer_budget_tend_appr nt dt f).2 0 j i = none ∧
    (tracer_budget_tend_appr nt dt f).2 (nt - 1) j i = none := by
  constructor
  · simp only [tracer_budget_tend_appr, setT]
    by_cases h : (0 : ℕ) = nt - 1 <;> simp [h, vfill2, vdiv]
  · simp [tracer_budget_tend_appr, setT, vfill2, vdiv]

/-- C7 witness: a length-3 constant series. -/
theorem c7_tend_boundary_missing_witness :
    (tracer_budget_tend_appr 3 (fun _ => some 86400) (fun _ _ _ => some 5)).2 0 0 0 = none ∧
    (tracer_budget_tend_appr 3 (fun _ => some 86400) (fun _ _ _ => some 5)).2 2 0 0 = none := by
  have h := c7_tend_boundary_missing 3 (fun _ => some 86400) (fun _ _ _ => some 5)
    (by norm_num) 0 0
  simpa using h

/-- C2 (counterexample): a constant-in-time series of length 3 with value 1
and period 1 gives tendency `some 1`, not `some 0`, at the interior time
index 1 — the two `.values` slice assignments in the source do not write
back into the buffer, so interior indices keep `field[n]` and the division
makes them `field[n]/dt[n]`, nonzero for a nonzero constant. -/
theorem c2_constant_series_interior_not_zero :
    (tracer_budget_tend_appr 3 (fun _ => some 1) (fun _ _ _ => some 1)).2 1 0 0 = some 1 ∧
    (tracer_budget_tend_appr 3 (fun _ => some 1) (fun _ _ _ => some 1)).2 1 0 0 ≠ some 0 := by
  refine ⟨?_, ?_⟩ <;> norm_num [tracer_budget_tend_appr, setT, vfill2, vdiv]

/-- C2 (amended): for a constant-in-time series of length at least 3, the
tendency at every interior time index equals the constant field divided by
that sample's period length (so it is exactly zero there only when the
constant is zero), not exactly zero. -/
theorem c2_amended_interior_value (nt : ℕ) (dt : ℕ → V) (c : F2) (n j i : ℕ)
    (h3 : 3 ≤ nt) (hlo : 1 ≤ n) (hhi : n ≤ nt - 2) :
    (tracer_budget_tend_appr nt dt (fun _ => c)).2 n j i = vdiv (c j i) (dt n) := by
  have h0 : n ≠ 0 := by omega
  have h1 : n ≠ nt - 1 := by omega
  simp [tracer_budget_tend_appr, setT, h0, h1]

/-- C2 witness: constant 7, period 2, interior index 1 of a length-3 series. -/
theorem c2_amended_interior_value_witness :
    (tracer_budget_tend_appr 3 (fun _ => some 2) (fun _ _ _ => some 7)).2 1 0 0
      = some (7 / 2) := by
  have h := c2_amended_interior_value 3 (fun _ => some 2) (fun _ _ => some 7) 1 0 0
    (by norm_num) (by norm_num) (by norm_num)
  simpa [vdiv] using h

/-- C3 (counterexample): `tracer_budget_tend_appr` does not leave its input
unchanged — `load()` returns the same array object and the boundary fill
assignments write through it, so for a length-2 all-ones series the input
buffer's last time slice is NaN after the call. -/
theorem c3_input_mutated :
    (tracer_budget_tend_appr 2 (fun _ => some 1) (fun _ _ _ => some 1)).1 1 0 0 = none ∧
    (fun (_ _ _ : ℕ) => (some 1 : V)) 1 0 0 = some 1 ∧
    (tracer_budget_tend_appr 2 (fun _ => some 1) (fun _ _ _ => some 1)).1 1 0 0 ≠
      (fun (_ _ _ : ℕ) => (some 1 : V)) 1 0 0 := by
  refine ⟨?_, rfl, ?_⟩ <;> simp [tracer_budget_tend_appr, setT, vfill2]

/-- C3 (amended): `tracer_budget_tend_appr` mutates its input in place: for
any series of length at least 2, after the call the input's first and last
time slices are the NaN fill field while all interior time slices are
unchanged. -/
theorem c3_amended_mutation (nt : ℕ) (dt : ℕ → V) (f : TS) (hnt : 2 ≤ nt) :
    (tracer_budget_tend_appr nt dt f).1 0 = vfill2 ∧
    (tracer_budget_tend_appr nt dt f).1 (nt - 1) = vfill2 ∧
    ∀ n, 1 ≤ n → n < nt - 1 → (tracer_budget_tend_appr nt dt f).1 n = f n := by
  refine ⟨?_, ?_, ?_⟩
  · simp only [tracer_budget_tend_appr, setT]
    by_cases h : (0 : ℕ) = nt - 1 <;> simp [h]
  · simp [tracer_budget_tend_appr, setT]
  · intro n hn1 hn2
    have h0 : n ≠ 0 := by omega
    have h1 : n ≠ nt - 1 := by omega
    simp [tracer_budget_tend_appr, setT, h0, h1]

/-- C3 amended witness: length-3 constant series with value 5. -/
theorem c3_amended_mutation_witness :
    (tracer_budget_tend_appr 3 (fun _ => some 1) (fun _ _ _ => some 5)).1 0 0 0 = none ∧
    (tracer_budget_tend_appr 3 (fun _ => some 1) (fun _ _ _ => some 5)).1 2 0 0 = none ∧
    (tracer_budget_tend_appr 3 (fun _ => some 1) (fun _ _ _ => some 5)).1 1 0 0 = some 5 := by
  obtain ⟨h1, h2, h3⟩ := c3_amended_mutation 3 (fun _ => some 1) (fun _ _ _ => some 5)
    (by norm_num)
  refine ⟨?_, ?_, ?_⟩
  · simpa [vfill2] using congrFun (congrFun h1 0) 0
  · simpa [vfill2] using congrFun (congrFun h2 0) 0
  · simpa using congrFun (congrFun (h3 1 (by norm_num) (by norm_num)) 0) 0

/-- C9: for `klo=0, khi=1` and any column with `kmt = 1`, the bottom-level
area factor `tarea.where(kmt > khi, 0)` is zero and the diabatic mixing
output equals `+FIELD_TOP*area_top`, the bottom contribution fully
suppressed even when the bottom field value is missing (the `fillna(0)`
absorbs `NaN * 0`). -/
theorem c9_dia_vmix_bottom_suppressed (FIELD : F4) (tarea : ℕ → ℕ → ℚ)
    (kmt : ℕ → ℕ → ℕ) (t j i : ℕ) (hb : kmt j i = 1) :
    (if kmt j i > 1 then tarea j i else 0) = 0 ∧
    tracer_budget_dia_vmix 0 1 FIELD tarea kmt t j i =
      vmul (FIELD t 0 j i) (some (tarea j i)) := by
  refine ⟨by simp [hb], ?_⟩
  simp only [tracer_budget_dia_vmix, hb]
  cases hbot : FIELD t 1 j i <;> cases htop : FIELD t 0 j i <;>
    simp [vmul, vsub, vneg, fillna0]

/-- C9 witness: bottom field value missing, top value 4, area 3, `kmt = 1`:
output `some 12 = 4*3`. -/
theorem c9_dia_vmix_bottom_suppressed_witness :
    tracer_budget_dia_vmix 0 1 (fun _ k _ _ => if k = 0 then some 4 else none)
      (fun _ _ => 3) (fun _ _ => 1) 0 0 0 = some 12 ∧
    (if (1 : ℕ) > 1 then (3 : ℚ) else 0) = 0 := by
  obtain ⟨h1, h2⟩ := c9_dia_vmix_bottom_suppressed
    (fun _ k _ _ => if k = 0 then some 4 else none) (fun _ _ => 3) (fun _ _ => 1)
    0 0 0 rfl
  constructor
  · rw [h2]
    norm_num [vmul]
  · simpa using h1
